import Mathlib

/-!
Verification development for the interactive-resume RAG application
(source file `Main.py`).  The ingestion pipeline (`create_vectorstore`),
the chain construction (`create_rag_chain`), the per-question handler
(`render_ask_binay_section`), and the session initialisation portion of
`main` are embedded shallowly.  External collaborators whose code is not
part of the repository (the LangChain text splitter, the Chroma
similarity retriever, the OpenAI chat backend) are modelled from the
specification; each such definition is marked `Modelled from the spec:`
in its doc comment.
-/

/-- Text is modelled as a list of characters (Python `str`). -/
abbrev Text := List Char

/-- The characters of a string literal, used to transcribe the Python
string constants of the source. -/
def txt (s : String) : Text := s.data

/-- Decimal rendering of a natural number, as produced by Python
f-string interpolation of an integer value. -/
def natTxt (n : Nat) : Text := (Nat.repr n).data

/-- Modelled from the spec: the document chunker.  The source delegates
chunking to `RecursiveCharacterTextSplitter` from the LangChain library,
whose implementation is not part of this repository; the spec describes
the component as splitting text into overlapping fixed-size windows of
size `w` whose consecutive windows overlap by `o` characters, with a
final short window at the document boundary.  `fuel` bounds the
recursion so the function is structurally recursive; `chunkText` always
supplies sufficient fuel. -/
def chunkTextGo (w o : Nat) : Nat → Text → List Text
  | 0, t => [t]
  | fuel + 1, t =>
    if t.length ≤ w ∨ w - o = 0 then [t]
    else t.take w :: chunkTextGo w o fuel (t.drop (w - o))

/-- Modelled from the spec: entry point of the chunker, window `w` and
overlap `o`. -/
def chunkText (w o : Nat) (t : Text) : List Text :=
  chunkTextGo w o t.length t

/-- The prose splitter of `create_vectorstore`:
`RecursiveCharacterTextSplitter(chunk_size=1500, chunk_overlap=200)`. -/
def text_splitter_large (t : Text) : List Text := chunkText 1500 200 t

/-- The structured-data splitter of `create_vectorstore`:
`RecursiveCharacterTextSplitter(chunk_size=1000, chunk_overlap=150)`. -/
def text_splitter_medium (t : Text) : List Text := chunkText 1000 150 t

/-- Metadata attached to a produced document, covering the keys written
by `create_vectorstore`.  Keys absent for a given document kind are
`none`; the Python `"type"` key is the `type` field. -/
structure DocMeta where
  source : String
  type : Option String := none
  chunk : Option Nat := none
  username : Option Text := none
  repo_name : Option Text := none
  url : Option Text := none
  company : Option Text := none
  title : Option Text := none
  school : Option Text := none
  degree : Option Text := none
  deriving DecidableEq

/-- A LangChain `Document`: the atomic unit inserted into the vector
store by `create_vectorstore`. -/
structure Document where
  page_content : Text
  metadata : DocMeta
  deriving DecidableEq

/-- The profile part of the record returned by `extract_github_info`. -/
structure GithubProfile where
  username : Text
  bio : Text
  name : Text
  company : Text
  location : Text
  email : Text
  url : Text
  followers : Nat
  following : Nat
  public_repos : Nat
  deriving DecidableEq

/-- One repository record returned by `extract_github_info`; `readme`
holds the default sentinel text when no README could be fetched. -/
structure RepoData where
  name : Text
  description : Text
  url : Text
  language : Text
  stars : Nat
  forks : Nat
  last_updated : Text
  readme : Text
  deriving DecidableEq

/-- The record returned by `extract_github_info` on success. -/
structure GithubData where
  profile : GithubProfile
  repositories : List RepoData
  deriving DecidableEq

/-- The profile part of the record returned by `extract_linkedin_info`. -/
structure LinkedinProfile where
  summary : Text
  headline : Text
  location : Text
  geo_country : Text
  industry : Text
  deriving DecidableEq

/-- One experience entry of the LinkedIn record. -/
structure LinkedinExperience where
  title : Text
  company : Text
  location : Text
  dates : Text
  description : Text
  deriving DecidableEq

/-- One education entry of the LinkedIn record. -/
structure LinkedinEducation where
  schoolName : Text
  degreeName : Text
  fieldOfStudy : Text
  dates : Text
  description : Text
  deriving DecidableEq

/-- The record returned by `extract_linkedin_info` on success. -/
structure LinkedinData where
  profile : LinkedinProfile
  experience : List LinkedinExperience
  education : List LinkedinEducation
  skills : List Text
  deriving DecidableEq

/-- A dynamically typed Python value, as received by the first two
parameters of `create_vectorstore`: the call chain
`main` → `cached_create_vectorstore` → `create_vectorstore` passes the
global `resume_data` dict and the extracted resume text positionally,
and `create_vectorstore` dispatches on `isinstance` checks. -/
inductive PyVal where
  | pyNone : PyVal
  | str : Text → PyVal
  | dict : List (Text × Text) → PyVal
  deriving DecidableEq

/-- Maps a list with its index, as Python `enumerate` does in the
chunk-appending loops of `create_vectorstore`. -/
def mapIdxFrom (f : Nat → α → β) : Nat → List α → List β
  | _, [] => []
  | i, x :: xs => f i x :: mapIdxFrom f (i + 1) xs

/-- The sentinel README text set by `extract_github_info` when no README
file was found. -/
def readmeDefault : Text := txt "README not found or could not be decoded."

/-- A resume chunk document: metadata `{"source": "resume", "chunk": i}`. -/
def resumeDoc (i : Nat) (c : Text) : Document :=
  { page_content := c, metadata := { source := "resume", chunk := some i } }

/-- The string built from the resume dict:
`"\n".join([f"{key}: {value}" for key, value in resume_data.items()])`. -/
def resumeDataStr (d : List (Text × Text)) : Text :=
  List.intercalate (txt "\n") (d.map fun kv => kv.1 ++ txt ": " ++ kv.2)

/-- Documents produced by the first block of `create_vectorstore`,
guarded by `if resume_data and isinstance(resume_data, dict)`. -/
def resumeDataDocs (v : PyVal) : List Document :=
  match v with
  | PyVal.dict d =>
    if d = [] then []
    else mapIdxFrom resumeDoc 0 (text_splitter_medium (resumeDataStr d))
  | _ => []

/-- Documents produced by the second block of `create_vectorstore`,
guarded by `if resume_text and isinstance(resume_text, str)`. -/
def resumeTextDocs (v : PyVal) : List Document :=
  match v with
  | PyVal.str s =>
    if s = [] then []
    else mapIdxFrom resumeDoc 0 (text_splitter_medium s)
  | _ => []

/-- The GitHub profile document content f-string. -/
def githubProfileContent (p : GithubProfile) : Text :=
  txt "GitHub Profile (" ++ p.username ++ txt "): Name: " ++ p.name ++
  txt ", Bio: " ++ p.bio ++ txt ", Location: " ++ p.location ++
  txt ", Company: " ++ p.company ++ txt ". Followers: " ++
  natTxt p.followers ++ txt ", Public Repos: " ++ natTxt p.public_repos ++ txt "."

/-- The GitHub profile document. -/
def githubProfileDoc (p : GithubProfile) : Document :=
  { page_content := githubProfileContent p,
    metadata := { source := "github", type := some "profile", username := some p.username } }

/-- The per-repository summary content f-string. -/
def repoSummaryContent (r : RepoData) : Text :=
  txt "GitHub Repo: " ++ r.name ++ txt "\nLanguage: " ++ r.language ++
  txt "\nStars: " ++ natTxt r.stars ++ txt "\nDescription: " ++ r.description ++
  txt "\nLast Updated: " ++ r.last_updated

/-- The per-repository summary document. -/
def repoSummaryDoc (r : RepoData) : Document :=
  { page_content := repoSummaryContent r,
    metadata := { source := "github", type := some "repo_summary",
                  repo_name := some r.name, url := some r.url } }

/-- A README chunk document: the splitter output is stored with the
annotation prefix `f"GitHub README ({repo['name']}): {chunk}"`. -/
def readmeDoc (r : RepoData) (i : Nat) (c : Text) : Document :=
  { page_content := txt "GitHub README (" ++ r.name ++ txt "): " ++ c,
    metadata := { source := "github", type := some "readme",
                  repo_name := some r.name, chunk := some i, url := some r.url } }

/-- Documents produced for one repository: the summary document,
followed by README chunks when
`repo["readme"] and repo["readme"] != "README not found or could not be decoded."`. -/
def repoDocs (r : RepoData) : List Document :=
  repoSummaryDoc r ::
    (if r.readme ≠ [] ∧ r.readme ≠ readmeDefault then
      mapIdxFrom (readmeDoc r) 0 (text_splitter_large r.readme)
    else [])

/-- Documents produced by the GitHub block of `create_vectorstore`. -/
def githubDocs (g : GithubData) : List Document :=
  githubProfileDoc g.profile :: g.repositories.flatMap repoDocs

/-- The LinkedIn profile document. -/
def linkedinProfileDoc (p : LinkedinProfile) : Document :=
  { page_content := txt "LinkedIn Profile Summary: " ++ p.headline ++ txt ". " ++
      p.summary ++ txt ". Location: " ++ p.location ++ txt ", Industry: " ++
      p.industry ++ txt ".",
    metadata := { source := "linkedin", type := some "profile" } }

/-- A LinkedIn experience document (content numbers entries from 1). -/
def linkedinExpDoc (i : Nat) (e : LinkedinExperience) : Document :=
  { page_content := txt "LinkedIn Experience " ++ natTxt (i + 1) ++ txt ": " ++
      e.title ++ txt " at " ++ e.company ++ txt " (" ++ e.dates ++
      txt ", Location: " ++ e.location ++ txt ").\nDescription: " ++ e.description,
    metadata := { source := "linkedin", type := some "experience",
                  company := some e.company, title := some e.title } }

/-- A LinkedIn education document. -/
def linkedinEduDoc (i : Nat) (e : LinkedinEducation) : Document :=
  { page_content := txt "LinkedIn Education " ++ natTxt (i + 1) ++ txt ": " ++
      e.degreeName ++ txt " in " ++ e.fieldOfStudy ++ txt " at " ++
      e.schoolName ++ txt " (" ++ e.dates ++ txt ").\nDescription: " ++ e.description,
    metadata := { source := "linkedin", type := some "education",
                  school := some e.schoolName, degree := some e.degreeName } }

/-- The single skills document, produced when the skills list is
non-empty. -/
def linkedinSkillsDoc (skills : List Text) : Document :=
  { page_content := txt "LinkedIn Skills: " ++ List.intercalate (txt ", ") skills,
    metadata := { source := "linkedin", type := some "skills" } }

/-- Documents produced by the LinkedIn block of `create_vectorstore`. -/
def linkedinDocs (l : LinkedinData) : List Document :=
  linkedinProfileDoc l.profile ::
    (mapIdxFrom linkedinExpDoc 0 l.experience ++
     mapIdxFrom linkedinEduDoc 0 l.education ++
     (if l.skills ≠ [] then [linkedinSkillsDoc l.skills] else []))

/-- The `all_documents` list accumulated by `create_vectorstore`.  Note
the parameter order of the source: the first parameter is named
`resume_text` and the second `resume_data`, while the caller passes the
resume dict first and the extracted text second. -/
def all_documents (resume_text resume_data : PyVal)
    (github_data : Option GithubData) (linkedin_data : Option LinkedinData) :
    List Document :=
  resumeDataDocs resume_data ++ resumeTextDocs resume_text ++
  (match github_data with | some g => githubDocs g | none => []) ++
  (match linkedin_data with | some l => linkedinDocs l | none => [])

/-- The vector-store construction: returns `None` when
`if not all_documents`, otherwise builds the Chroma index from the
documents.  The successful index is modelled as the inserted document
list (the embedding backend and on-disk persistence are external I/O). -/
def create_vectorstore (resume_text resume_data : PyVal)
    (github_data : Option GithubData) (linkedin_data : Option LinkedinData) :
    Option (List Document) :=
  let docs := all_documents resume_text resume_data github_data linkedin_data
  if docs = [] then none else some docs

/-- Insert a document into a list sorted by descending score. -/
def insertDesc (f : Document → Int) (d : Document) : List Document → List Document
  | [] => [d]
  | x :: xs => if f x ≤ f d then d :: x :: xs else x :: insertDesc f d xs

/-- Insertion sort by descending score, used to model the retriever's
ordering by descending similarity. -/
def sortDesc (f : Document → Int) : List Document → List Document
  | [] => []
  | x :: xs => insertDesc f x (sortDesc f xs)

/-- Modelled from the spec: the similarity retriever.  The source
obtains it from the Chroma library via
`vectorstore.as_retriever(search_kwargs={'k': 5})`, whose implementation
is not part of this repository; the spec describes `retrieve(q, k)` as
returning up to `k` chunks of the index ordered by descending
similarity, and an empty sequence when no chunk clears a minimum
relevance.  `qsim` scores a document against the current query and
`minRel` is the minimum relevance. -/
def retrieve (index : List Document) (qsim : Document → Int) (minRel : Int)
    (k : Nat) : List Document :=
  (sortDesc qsim (index.filter fun d => decide (minRel ≤ qsim d))).take k

/-- The retriever fan-out configured by `create_rag_chain`:
`search_kwargs={'k': 5}`. -/
def rag_k : Nat := 5

/-- The generation model identifier configured by `create_rag_chain`. -/
def llm_model_name : String := "gpt-4-turbo-preview"

/-- The bounded output length configured by `create_rag_chain`
(`max_tokens=500`). -/
def llm_max_tokens : Nat := 500

/-- The sampling temperature configured by `create_rag_chain`
(`temperature=0.1`), recorded as a rational. -/
def llm_temperature : ℚ := 1 / 10

/-- The fixed prompt template of `create_rag_chain`, as a function of
the formatted context and the user question (the template's `{context}`
and `{input}` slots). -/
def prompt_template (context input_ : Text) : Text :=
  txt "You are Binay Siddharth\x27s professional AI assistant. Your purpose is to answer questions about Binay\x27s skills, experience, projects, and career based *only* on the information provided in the context below.\n\n        Context Sources: Resume, GitHub profile/repositories, LinkedIn profile.\n\n        Instructions:\n        1.  Answer the user\x27s question concisely and professionally.\n        2.  Base your answer *strictly* on the provided context.\n        3.  If the context does not contain the information needed to answer the question, clearly state that the information is not available in the provided documents (resume, GitHub, LinkedIn). Do not make assumptions or use external knowledge.\n        4.  If relevant, mention the source of the information (e.g., \"According to the resume...\", \"On GitHub, the project...\").\n        5.  Format your answers clearly. Use bullet points for lists if appropriate.\n        6.  Do not mention the context itself in the final answer unless specifying the source.\n\n        Context:\n        " ++
  context ++
  txt "\n\n        Question:\n        " ++
  input_ ++
  txt "\n\n        Answer:"

/-- Modelled from the spec: how the retrieved documents are rendered
into the `{context}` slot of the prompt (the exact stringification is
performed by the LangChain prompt formatter, which is not part of this
repository); rendered as the chunk contents in retrieval order. -/
def renderDocs (docs : List Document) : Text :=
  List.intercalate (txt "\n\n") (docs.map fun d => d.page_content)

/-- The RAG chain built by `create_rag_chain`: the index wrapped by the
retriever, the query-scoring function and minimum relevance of the
retrieval backend, and the generation backend (`llm`), which on a
prompt either returns generated text or raises an error. -/
structure ChainConfig where
  index : List Document
  sim : Text → Document → Int
  minRel : Int
  llm : Text → Except Text Text

/-- Result of one invocation of the RAG chain
(`{"context": retriever, "input": RunnablePassthrough()} | prompt | llm`):
the retrieved documents, the assembled prompt, and the generation
outcome. -/
structure ChainOutput where
  retrieved : List Document
  prompt : Text
  answer : Except Text Text

/-- `create_rag_chain`: returns `None` when `if not vectorstore`,
otherwise the configured chain.  The retrieval scoring and generation
backends are external collaborators passed in as parameters. -/
def create_rag_chain (vectorstore : Option (List Document))
    (sim : Text → Document → Int) (minRel : Int)
    (llm : Text → Except Text Text) : Option ChainConfig :=
  match vectorstore with
  | none => none
  | some idx => some { index := idx, sim := sim, minRel := minRel, llm := llm }

/-- One invocation of the RAG chain on the user question `q`: the
retriever fills `{context}` with the documents retrieved for `q`, the
prompt template is filled, and the generation backend is called once on
the assembled prompt. -/
def invoke_chain (c : ChainConfig) (q : Text) : ChainOutput :=
  let docs := retrieve c.index (c.sim q) c.minRel rag_k
  let p := prompt_template (renderDocs docs) q
  { retrieved := docs, prompt := p, answer := c.llm p }

/-- One conversation turn held in `st.session_state.messages`. -/
structure Turn where
  role : Text
  content : Text
  deriving DecidableEq

/-- The outcome of one submitted question in
`render_ask_binay_section`: the updated session message history, the
chat CSV rows appended by `log_chat` (modelled as
(user message, AI response) pairs; the wall-clock timestamp column is
elided), and the prompt sent to the generation backend (`none` when no
generation call was made). -/
structure AskResult where
  messages : List Turn
  chat_log : List (Text × Text)
  sentPrompt : Option Text

/-- The apology appended to the history when the RAG chain is
unavailable. -/
def apology_text : Text :=
  txt "Apologies, I couldn\x27t process that as my underlying systems are not ready. Please check the application setup."

/-- The fallback response built in the `except` handler of
`render_ask_binay_section`:
`f"Sorry, I encountered an error trying to answer that: {e}"`. -/
def error_text (e : Text) : Text :=
  txt "Sorry, I encountered an error trying to answer that: " ++ e

/-- The question-handling path of `render_ask_binay_section` for one
submitted question `promptIn`: the user message is appended; if the
session's chain is absent the apology is appended and the handler
returns before `log_chat`; otherwise the chain is invoked, any raised
generation error is caught and replaced by the fallback text, the
response is appended to the history, and `log_chat` appends one row. -/
def render_ask_binay_section (chain : Option ChainConfig)
    (messages : List Turn) (log : List (Text × Text)) (promptIn : Text) :
    AskResult :=
  let messages := messages ++ [{ role := txt "user", content := promptIn }]
  match chain with
  | none =>
    { messages := messages ++ [{ role := txt "assistant", content := apology_text }],
      chat_log := log, sentPrompt := none }
  | some c =>
    let out := invoke_chain c promptIn
    let full := match out.answer with
      | Except.ok r => r
      | Except.error e => error_text e
    { messages := messages ++ [{ role := txt "assistant", content := full }],
      chat_log := log ++ [(promptIn, full)], sentPrompt := some out.prompt }

/-- The observable outcome of the RAG-setup section of `main`:
`ingested` is the document list passed to the vector-store build
(`none` when the build was never attempted), `index` the built index,
and `rag_chain` the session's chain (`st.session_state.rag_chain`). -/
structure InitResult where
  ingested : Option (List Document)
  index : Option (List Document)
  rag_chain : Option ChainConfig

/-- The RAG-setup section of `main`: extraction results are the three
`Option`-valued inputs (`None` on extractor failure); if
`if not resume_text` the setup returns immediately; otherwise the
vector store is built via
`cached_create_vectorstore(resume_data, resume_text, github_data, linkedin_data)`,
which forwards its arguments positionally to
`create_vectorstore(resume_text, resume_data, ...)` — so the resume
dict arrives in the `resume_text` parameter and the extracted text in
the `resume_data` parameter; if the build returned `None` the setup
aborts, otherwise the chain is created. -/
def main_rag_setup (resumeDataDict : List (Text × Text))
    (resume_text : Option Text) (github_data : Option GithubData)
    (linkedin_data : Option LinkedinData) (sim : Text → Document → Int)
    (minRel : Int) (llm : Text → Except Text Text) : InitResult :=
  match resume_text with
  | none => { ingested := none, index := none, rag_chain := none }
  | some rt =>
    if rt = [] then { ingested := none, index := none, rag_chain := none }
    else
      match create_vectorstore (PyVal.dict resumeDataDict) (PyVal.str rt)
        github_data linkedin_data with
      | none =>
        { ingested := some (all_documents (PyVal.dict resumeDataDict)
            (PyVal.str rt) github_data linkedin_data),
          index := none, rag_chain := none }
      | some idx =>
        { ingested := some (all_documents (PyVal.dict resumeDataDict)
            (PyVal.str rt) github_data linkedin_data),
          index := some idx,
          rag_chain := create_rag_chain (some idx) sim minRel llm }

/-- A small resume dict standing in for the global `resume_data`
literal (its biographical content is immaterial to every claim; only
that it is a non-empty dict matters). -/
def rdict0 : List (Text × Text) :=
  [(txt "Contact", txt "Binay Siddharth, Sydney AU")]

/-- A successfully extracted resume text fixture. -/
def rt0 : Text :=
  txt "Senior Manager, Group BI Reporting... Commonwealth Bank of Australia"

/-- A GitHub profile fixture. -/
def gh_profile0 : GithubProfile :=
  { username := txt "binzidd", bio := txt "N/A", name := txt "Binay Siddharth",
    company := txt "N/A", location := txt "Sydney, AU", email := txt "N/A",
    url := txt "https://github.com/binzidd", followers := 10, following := 5,
    public_repos := 3 }

/-- A repository fixture whose README is 1500 characters long (one full
prose-profile window). -/
def repo0 : RepoData :=
  { name := txt "resume-app", description := txt "Interactive resume application",
    url := txt "https://github.com/binzidd/resume-app", language := txt "Python",
    stars := 3, forks := 0, last_updated := txt "2024-10-01",
    readme := List.replicate 1500 'a' }

/-- A GitHub extraction result fixture with one repository. -/
def gh0 : GithubData := { profile := gh_profile0, repositories := [repo0] }

/-- A constant similarity score, standing in for the embedding-distance
scoring of the retrieval backend. -/
def sim0 : Text → Document → Int := fun _ _ => 0

/-- A generation backend that always raises (e.g. a timeout). -/
def llm_fail0 : Text → Except Text Text := fun _ => Except.error (txt "timeout")

/-- A generation backend that always answers. -/
def llm_ok0 : Text → Except Text Text := fun _ => Except.ok (txt "an answer")

/-- A single indexed document fixture. -/
def doc0 : Document :=
  { page_content := txt "Commonwealth Bank of Australia",
    metadata := { source := "resume", chunk := some 0 } }

/-- A chain fixture whose one document clears the relevance minimum. -/
def chain0 : ChainConfig :=
  { index := [doc0], sim := sim0, minRel := 0, llm := llm_ok0 }

/-- A chain fixture whose index is non-empty but where no document
clears the relevance minimum. -/
def chain_thr0 : ChainConfig :=
  { index := [doc0], sim := sim0, minRel := 1, llm := llm_ok0 }

/-- A chain fixture whose generation backend always fails. -/
def chain_fail0 : ChainConfig :=
  { index := [doc0], sim := sim0, minRel := 0, llm := llm_fail0 }

/-- A question fixture. -/
def q0 : Text := txt "Where does Binay currently work?"

/-- The initial prefix of a list is one of its prefixes. -/
theorem take_isPre (n : Nat) (l : List α) : l.take n <+: l :=
  ⟨l.drop n, List.take_append_drop n l⟩

/-- Every window the chunker emits is at most `w` characters long. -/
theorem chunkTextGo_length_le {w o : Nat} (ho : o < w) :
    ∀ (fuel : Nat) (t : Text), t.length ≤ fuel →
      ∀ c ∈ chunkTextGo w o fuel t, c.length ≤ w := by
  intro fuel
  induction fuel with
  | zero =>
    intro t ht c hc
    have hnil : t = [] := List.length_eq_zero.mp (Nat.le_zero.mp ht)
    subst hnil
    simp only [chunkTextGo, List.mem_singleton] at hc
    subst hc
    simp
  | succ n ih =>
    intro t ht c hc
    simp only [chunkTextGo] at hc
    split at hc
    · next h =>
      rcases h with h | h
      · rw [List.mem_singleton] at hc; subst hc; exact h
      · omega
    · next h =>
      push_neg at h
      rcases List.mem_cons.mp hc with rfl | hc'
      · simp only [List.length_take]
        exact Nat.min_le_left w t.length
      · refine ih (t.drop (w - o)) ?_ c hc'
        simp only [List.length_drop]
        omega

/-- The first window the chunker emits is the `w`-prefix of the text. -/
theorem chunkTextGo_head {w o : Nat} (ho : o < w) :
    ∀ (fuel : Nat) (t : Text), t.length ≤ fuel →
      (chunkTextGo w o fuel t).head? = some (t.take w) := by
  intro fuel
  cases fuel with
  | zero =>
    intro t ht
    have hnil : t = [] := List.length_eq_zero.mp (Nat.le_zero.mp ht)
    subst hnil
    simp [chunkTextGo]
  | succ n =>
    intro t ht
    simp only [chunkTextGo]
    split
    · next h =>
      rcases h with h | h
      · simp [List.take_of_length_le h]
      · omega
    · rfl

/-- Consecutive windows emitted by the chunker overlap by at least `o`
characters: the `o`-suffix of each window is a prefix of the next. -/
theorem chunkTextGo_chain {w o : Nat} (ho : o < w) :
    ∀ (fuel : Nat) (t : Text), t.length ≤ fuel →
      List.Chain' (fun a b => o ≤ a.length ∧ a.drop (a.length - o) <+: b)
        (chunkTextGo w o fuel t) := by
  intro fuel
  induction fuel with
  | zero =>
    intro t ht
    exact List.chain'_singleton t
  | succ n ih =>
    intro t ht
    simp only [chunkTextGo]
    split
    · exact List.chain'_singleton t
    · next h =>
      push_neg at h
      obtain ⟨h1, h2⟩ := h
      have hdl : (t.drop (w - o)).length ≤ n := by
        simp only [List.length_drop]
        omega
      refine List.chain'_cons'.mpr ⟨?_, ih _ hdl⟩
      intro y hy
      rw [chunkTextGo_head ho n _ hdl, Option.mem_some_iff] at hy
      subst hy
      have hlen : (t.take w).length = w := by
        simp only [List.length_take]
        omega
      refine ⟨by omega, ?_⟩
      rw [hlen]
      have e1 : (t.take w).drop (w - o) = (t.drop (w - o)).take o := by
        rw [List.drop_take]
        congr 1
        omega
      have e2 : (t.drop (w - o)).take o = ((t.drop (w - o)).take w).take o := by
        rw [List.take_take]
        congr 1
        omega
      rw [e1, e2]
      exact take_isPre o ((t.drop (w - o)).take w)

/-- Window-size bound transferred to `chunkText`. -/
theorem chunkText_length_le {w o : Nat} (ho : o < w) (t : Text) :
    ∀ c ∈ chunkText w o t, c.length ≤ w :=
  chunkTextGo_length_le ho t.length t (Nat.le_refl _)

/-- Overlap property transferred to `chunkText`. -/
theorem chunkText_chain {w o : Nat} (ho : o < w) (t : Text) :
    List.Chain' (fun a b => o ≤ a.length ∧ a.drop (a.length - o) <+: b)
      (chunkText w o t) :=
  chunkTextGo_chain ho t.length t (Nat.le_refl _)

/-- Members of a `mapIdxFrom` image come from the underlying list. -/
theorem mem_mapIdxFrom {f : Nat → α → β} :
    ∀ {i : Nat} {l : List α} {y : β}, y ∈ mapIdxFrom f i l →
      ∃ j x, x ∈ l ∧ y = f j x := by
  intro i l
  induction l generalizing i with
  | nil => intro y hy; simp [mapIdxFrom] at hy
  | cons a as ih =>
    intro y hy
    rcases List.mem_cons.mp hy with rfl | hy'
    · exact ⟨i, a, List.mem_cons_self a as, rfl⟩
    · obtain ⟨j, x, hx, hyx⟩ := ih hy'
      exact ⟨j, x, List.mem_cons_of_mem a hx, hyx⟩

/-- Members of an `insertDesc` result are the inserted element or come
from the original list. -/
theorem mem_insertDesc {f : Document → Int} {d x : Document} :
    ∀ {l : List Document}, x ∈ insertDesc f d l → x = d ∨ x ∈ l := by
  intro l
  induction l with
  | nil => intro h; simp only [insertDesc, List.mem_singleton] at h; exact Or.inl h
  | cons a as ih =>
    intro h
    simp only [insertDesc] at h
    split at h
    · rcases List.mem_cons.mp h with rfl | h'
      · exact Or.inl rfl
      · exact Or.inr h'
    · rcases List.mem_cons.mp h with rfl | h'
      · exact Or.inr (List.mem_cons_self _ _)
      · rcases ih h' with h'' | h''
        · exact Or.inl h''
        · exact Or.inr (List.mem_cons_of_mem a h'')

/-- Members of a `sortDesc` result come from the original list. -/
theorem mem_sortDesc {f : Document → Int} {x : Document} :
    ∀ {l : List Document}, x ∈ sortDesc f l → x ∈ l := by
  intro l
  induction l with
  | nil => intro h; simp only [sortDesc] at h; exact absurd h (List.not_mem_nil x)
  | cons a as ih =>
    intro h
    simp only [sortDesc] at h
    rcases mem_insertDesc h with rfl | h'
    · exact List.mem_cons_self _ _
    · exact List.mem_cons_of_mem a (ih h')

/-- Every retrieved document comes from the index. -/
theorem retrieve_subset {index : List Document} {qsim : Document → Int}
    {minRel : Int} {k : Nat} {x : Document}
    (hx : x ∈ retrieve index qsim minRel k) : x ∈ index := by
  have h1 : x ∈ sortDesc qsim (index.filter fun d => decide (minRel ≤ qsim d)) :=
    List.take_subset _ _ hx
  exact List.mem_of_mem_filter (mem_sortDesc h1)

/-- Retrieval returns at most `k` documents. -/
theorem retrieve_length_le (index : List Document) (qsim : Document → Int)
    (minRel : Int) (k : Nat) : (retrieve index qsim minRel k).length ≤ k := by
  simp only [retrieve]
  exact List.length_take_le _ _

set_option maxRecDepth 16384

/-- C1: the spec claims that in every session in which the resume text
is successfully extracted, the built index contains at least one chunk
whose metadata tags `source` as `"resume"`.  The code violates this:
`main` passes `(resume_data, resume_text, ...)` positionally through
`cached_create_vectorstore` into `create_vectorstore(resume_text,
resume_data, ...)`, so the dict arrives in the `resume_text` parameter
and the text in the `resume_data` parameter, and both `isinstance`
guards fail.  At a concrete session with successfully extracted resume
text and available GitHub data, the built index is non-empty yet
contains no resume-tagged chunk. -/
theorem c1_no_resume_tagged_chunk :
    (main_rag_setup rdict0 (some rt0) (some gh0) none sim0 0 llm_ok0).index.isSome = true
    ∧ ((main_rag_setup rdict0 (some rt0) (some gh0) none sim0 0 llm_ok0).index.getD []).all
        (fun d => d.metadata.source != "resume") = true := by
  constructor
  · decide
  · decide

/-- C2: if zero chunks are produced across all sources,
`create_vectorstore` yields `None` rather than an empty index, the
RAG setup of `main` leaves the session without index and without chain,
and a submitted question is answered with the fixed apology and never
reaches the generation backend. -/
theorem c2_empty_corpus_unreachable_ask (d : List (Text × Text)) (rt : Text)
    (gh : Option GithubData) (li : Option LinkedinData)
    (sim : Text → Document → Int) (mr : Int) (llm : Text → Except Text Text)
    (h : all_documents (PyVal.dict d) (PyVal.str rt) gh li = []) :
    (main_rag_setup d (some rt) gh li sim mr llm).index = none
    ∧ (main_rag_setup d (some rt) gh li sim mr llm).rag_chain = none
    ∧ ∀ (msgs : List Turn) (log : List (Text × Text)) (q : Text),
        (render_ask_binay_section
          (main_rag_setup d (some rt) gh li sim mr llm).rag_chain msgs log q).sentPrompt
            = none
        ∧ (render_ask_binay_section
            (main_rag_setup d (some rt) gh li sim mr llm).rag_chain msgs log q).messages
          = msgs ++ [{ role := txt "user", content := q },
                     { role := txt "assistant", content := apology_text }] := by
  have hvs : create_vectorstore (PyVal.dict d) (PyVal.str rt) gh li = none := by
    simp [create_vectorstore, h]
  have hchain : (main_rag_setup d (some rt) gh li sim mr llm).rag_chain = none := by
    by_cases hrt : rt = [] <;> simp [main_rag_setup, hrt, hvs]
  have hidx : (main_rag_setup d (some rt) gh li sim mr llm).index = none := by
    by_cases hrt : rt = [] <;> simp [main_rag_setup, hrt, hvs]
  refine ⟨hidx, hchain, ?_⟩
  intro msgs log q
  rw [hchain]
  exact ⟨rfl, by simp [render_ask_binay_section]⟩

/-- Witness for C2 at a concrete session: resume text was extracted but
(because of the argument swap) no documents are produced when GitHub and
LinkedIn are unavailable, and the setup yields no index. -/
theorem c2_empty_corpus_unreachable_ask_witness :
    all_documents (PyVal.dict rdict0) (PyVal.str rt0) none none = []
    ∧ (main_rag_setup rdict0 (some rt0) none none sim0 0 llm_ok0).index = none :=
  ⟨by decide,
   (c2_empty_corpus_unreachable_ask rdict0 rt0 none none sim0 0 llm_ok0 (by decide)).1⟩

/-- C3 counterexample: the claim says a failure of any single source
extractor — including the resume document extractor — does not abort
ingestion of the remaining sources.  In fact, when resume extraction
fails (`if not resume_text: return`), `main` aborts before
`create_vectorstore` is ever called, so the available GitHub documents
are never ingested. -/
theorem c3_resume_failure_aborts_ingestion :
    (main_rag_setup rdict0 none (some gh0) none sim0 0 llm_ok0).ingested = none
    ∧ githubDocs gh0 ≠ [] := by
  exact ⟨rfl, by decide⟩

/-- C3 amended: failures of the GitHub or LinkedIn extractors are
isolated — with the resume text available, ingestion proceeds for any
combination of their availability, and whichever of the two sources is
available still contributes its documents to the ingested corpus.  (A
resume-extractor failure, by contrast, aborts initialization.) -/
theorem c3_github_linkedin_failures_isolated (d : List (Text × Text)) (rt : Text)
    (gh : Option GithubData) (li : Option LinkedinData)
    (sim : Text → Document → Int) (mr : Int) (llm : Text → Except Text Text)
    (h : rt ≠ []) :
    (main_rag_setup d (some rt) gh li sim mr llm).ingested
      = some (all_documents (PyVal.dict d) (PyVal.str rt) gh li)
    ∧ (∀ g, gh = some g → ∀ x ∈ githubDocs g,
        x ∈ all_documents (PyVal.dict d) (PyVal.str rt) gh li)
    ∧ (∀ l, li = some l → ∀ x ∈ linkedinDocs l,
        x ∈ all_documents (PyVal.dict d) (PyVal.str rt) gh li) := by
  refine ⟨?_, ?_, ?_⟩
  · simp only [main_rag_setup, if_neg h]
    cases hc : create_vectorstore (PyVal.dict d) (PyVal.str rt) gh li <;> rfl
  · intro g hg x hx
    subst hg
    simp only [all_documents]
    exact List.mem_append_left _ (List.mem_append_right _ hx)
  · intro l hl x hx
    subst hl
    simp only [all_documents]
    exact List.mem_append_right _ hx

/-- Witness for C3 amended at a concrete session: resume text present,
GitHub available, LinkedIn unavailable. -/
theorem c3_github_linkedin_failures_isolated_witness :
    rt0 ≠ []
    ∧ (main_rag_setup rdict0 (some rt0) (some gh0) none sim0 0 llm_ok0).ingested
        = some (all_documents (PyVal.dict rdict0) (PyVal.str rt0) (some gh0) none) :=
  ⟨by decide,
   (c3_github_linkedin_failures_isolated rdict0 rt0 (some gh0) none sim0 0
     llm_ok0 (by decide)).1⟩

/-- C4 counterexample: the claim bounds every produced chunk's content
by the bound of the profile that produced it (1500 for the prose
profile).  A README chunk is stored with the annotation prefix
`f"GitHub README ({repo['name']}): {chunk}"`, so with a 1500-character
README the stored content is 1519 characters long. -/
theorem c4_readme_chunk_exceeds_bound :
    ∃ dch ∈ all_documents (PyVal.dict rdict0) (PyVal.str rt0) (some gh0) none,
      dch.metadata.type = some "readme" ∧ 1500 < dch.page_content.length := by
  decide

/-- C4 amended: every chunk emitted by the two splitter profiles is at
most its window bound (1000 structured-data, 1500 prose); README chunks
are stored with the annotation prefix `"GitHub README (<name>): "`, so a
stored README document may exceed 1500 by at most 18 plus the length of
the repository name. -/
theorem c4_splitter_bound_with_annotation :
    (∀ t : Text, ∀ c ∈ text_splitter_medium t, c.length ≤ 1000)
    ∧ (∀ t : Text, ∀ c ∈ text_splitter_large t, c.length ≤ 1500)
    ∧ (∀ g : GithubData, ∀ dch ∈ githubDocs g,
        dch.metadata.type = some "readme" →
        ∃ r ∈ g.repositories, dch.page_content.length ≤ 18 + r.name.length + 1500) := by
  refine ⟨?_, ?_, ?_⟩
  · intro t
    exact chunkText_length_le (by omega) t
  · intro t
    exact chunkText_length_le (by omega) t
  · intro g dch hmem htype
    simp only [githubDocs] at hmem
    rcases List.mem_cons.mp hmem with rfl | hmem'
    · simp [githubProfileDoc] at htype
    · obtain ⟨r, hr, hdr⟩ := List.mem_flatMap.mp hmem'
      refine ⟨r, hr, ?_⟩
      simp only [repoDocs] at hdr
      rcases List.mem_cons.mp hdr with rfl | hdr'
      · simp [repoSummaryDoc] at htype
      · by_cases hg : r.readme ≠ [] ∧ r.readme ≠ readmeDefault
        · rw [if_pos hg] at hdr'
          obtain ⟨j, ch, hch, rfl⟩ := mem_mapIdxFrom hdr'
          have hchlen : ch.length ≤ 1500 :=
            chunkText_length_le (by omega) r.readme ch hch
          simp only [readmeDoc, List.length_append]
          have h15 : (txt "GitHub README (").length = 15 := by decide
          have h3 : (txt "): ").length = 3 := by decide
          omega
        · rw [if_neg hg] at hdr'
          exact absurd hdr' (List.not_mem_nil dch)

/-- Witness for C4 amended: a short text is returned as a single window
of the structured-data profile, within the 1000-character bound. -/
theorem c4_splitter_bound_with_annotation_witness :
    rt0 ∈ text_splitter_medium rt0 ∧ rt0.length ≤ 1000 :=
  ⟨by decide, c4_splitter_bound_with_annotation.1 rt0 rt0 (by decide)⟩

/-- C5: for both splitter profiles, every pair of consecutive chunks of
a document overlaps by at least the configured overlap: the trailing
150 (resp. 200) characters of a chunk are a prefix of the next chunk. -/
theorem c5_consecutive_chunks_overlap (t : Text) :
    List.Chain'
      (fun a b => 150 ≤ a.length ∧ a.drop (a.length - 150) <+: b)
      (text_splitter_medium t)
    ∧ List.Chain'
      (fun a b => 200 ≤ a.length ∧ a.drop (a.length - 200) <+: b)
      (text_splitter_large t) :=
  ⟨chunkText_chain (by omega) t, chunkText_chain (by omega) t⟩

/-- C6: for every query, the chain's retriever returns at most `rag_k`
documents — with `rag_k = 5` as configured by `create_rag_chain` — and
every returned document was inserted into the built index. -/
theorem c6_retriever_bounded_and_sound (c : ChainConfig) (q : Text) :
    rag_k = 5
    ∧ (invoke_chain c q).retrieved.length ≤ rag_k
    ∧ ∀ dch ∈ (invoke_chain c q).retrieved, dch ∈ c.index := by
  refine ⟨rfl, ?_, ?_⟩
  · exact retrieve_length_le c.index (c.sim q) c.minRel rag_k
  · intro dch hd
    exact retrieve_subset hd

/-- Witness for C6: at a concrete chain whose single document clears the
relevance minimum, that document is retrieved and belongs to the index. -/
theorem c6_retriever_bounded_and_sound_witness :
    doc0 ∈ (invoke_chain chain0 q0).retrieved ∧ doc0 ∈ chain0.index :=
  ⟨by decide, (c6_retriever_bounded_and_sound chain0 q0).2.2 doc0 (by decide)⟩

/-- C7: when the index is non-empty but no document clears the minimum
relevance for the query, retrieval returns the empty sequence (a value,
not an error). -/
theorem c7_below_min_relevance_empty (c : ChainConfig) (q : Text)
    (_hne : c.index ≠ [])
    (hall : ∀ dch ∈ c.index, c.sim q dch < c.minRel) :
    (invoke_chain c q).retrieved = [] := by
  have hfilter : c.index.filter (fun d => decide (c.minRel ≤ c.sim q d)) = [] := by
    rw [List.filter_eq_nil_iff]
    intro a ha
    simp only [decide_eq_true_eq]
    exact Int.not_le.mpr (hall a ha)
  simp [invoke_chain, retrieve, hfilter, sortDesc]

/-- Witness for C7 at a concrete chain with a non-empty index whose
document scores below the minimum relevance. -/
theorem c7_below_min_relevance_empty_witness :
    chain_thr0.index ≠ []
    ∧ (∀ dch ∈ chain_thr0.index, chain_thr0.sim q0 dch < chain_thr0.minRel)
    ∧ (invoke_chain chain_thr0 q0).retrieved = [] :=
  ⟨by decide, by decide,
   c7_below_min_relevance_empty chain_thr0 q0 (by decide) (by decide)⟩

/-- C8: when the generation backend raises while answering, the handler
catches the exception, shows the fallback failure string (which carries
the fixed error marker, distinguishing it from a generated answer),
appends it to the session history, and `log_chat` still records it. -/
theorem c8_generation_failure_fallback (c : ChainConfig) (msgs : List Turn)
    (log : List (Text × Text)) (q e : Text)
    (h : c.llm (invoke_chain c q).prompt = Except.error e) :
    (render_ask_binay_section (some c) msgs log q).messages
      = msgs ++ [{ role := txt "user", content := q },
                 { role := txt "assistant", content := error_text e }]
    ∧ (render_ask_binay_section (some c) msgs log q).chat_log
      = log ++ [(q, error_text e)]
    ∧ txt "Sorry, I encountered an error trying to answer that: " <+: error_text e := by
  have hans : (invoke_chain c q).answer = Except.error e := h
  refine ⟨?_, ?_, ⟨e, rfl⟩⟩
  · simp [render_ask_binay_section, hans]
  · simp [render_ask_binay_section, hans]

/-- Witness for C8 at a concrete chain whose generation backend raises a
timeout: the fallback row is logged. -/
theorem c8_generation_failure_fallback_witness :
    chain_fail0.llm (invoke_chain chain_fail0 q0).prompt
      = Except.error (txt "timeout")
    ∧ (render_ask_binay_section (some chain_fail0) [] [] q0).chat_log
      = [(q0, error_text (txt "timeout"))] := by
  refine ⟨rfl, ?_⟩
  have h := c8_generation_failure_fallback chain_fail0 [] [] q0 (txt "timeout") rfl
  simpa using h.2.1

/-- C9: the prompt assembled for a question is a function of the chain
(index and scoring) and the question only: prior conversation turns and
the chat log do not enter retrieval or prompt assembly, so two runs with
the same chain and question but different histories send the identical
prompt, namely the template filled with the retrieved chunks and the
question. -/
theorem c9_prompt_independent_of_history (chain : Option ChainConfig)
    (m1 m2 : List Turn) (l1 l2 : List (Text × Text)) (q : Text) :
    (render_ask_binay_section chain m1 l1 q).sentPrompt
      = (render_ask_binay_section chain m2 l2 q).sentPrompt
    ∧ ∀ c, chain = some c →
        (render_ask_binay_section chain m1 l1 q).sentPrompt
          = some (prompt_template
              (renderDocs (retrieve c.index (c.sim q) c.minRel rag_k)) q) := by
  constructor
  · cases chain <;> rfl
  · intro c hc
    subst hc
    rfl

/-- Witness for C9 at a concrete chain and two different histories. -/
theorem c9_prompt_independent_of_history_witness :
    (some chain0 : Option ChainConfig) = some chain0
    ∧ (render_ask_binay_section (some chain0) [] [] q0).sentPrompt
      = some (prompt_template
          (renderDocs (retrieve chain0.index (chain0.sim q0) chain0.minRel rag_k)) q0) :=
  ⟨rfl,
   (c9_prompt_independent_of_history (some chain0) []
     [{ role := txt "assistant", content := apology_text }] [] [(q0, q0)] q0).2
     chain0 rfl⟩

/-- C10: with the chain absent, a submitted question appends the user
message and the fixed apology to the session history and writes no chat
CSV row; with a chain available, exactly one chat-log row is written
regardless of the generation outcome. -/
theorem c10_no_chain_no_log_row (msgs : List Turn) (log : List (Text × Text))
    (q : Text) :
    ((render_ask_binay_section none msgs log q).messages
        = msgs ++ [{ role := txt "user", content := q },
                   { role := txt "assistant", content := apology_text }]
      ∧ (render_ask_binay_section none msgs log q).chat_log = log)
    ∧ ∀ c : ChainConfig,
        (render_ask_binay_section (some c) msgs log q).chat_log.length
          = log.length + 1 := by
  refine ⟨⟨?_, rfl⟩, ?_⟩
  · simp [render_ask_binay_section]
  · intro c
    simp [render_ask_binay_section]
